import Mathlib

/-!
# Verification of the recast audio/transcription core

Shallow embedding of the device-enumeration, capture-pipeline,
default-route-tracker, transcription-worker and transcript-record code of
the repository, together with proofs of the stated properties.

Conventions:
* Python floats are modelled as rationals (`ℚ`).
* Python strings are Lean `String`s.
* External effects (GStreamer element creation, WirePlumber lookups,
  the whisper segment generator, file saves, the cancellation token) are
  modelled by explicit environment records; the embedded functions return
  the list of emitted callbacks/signals.
-/

namespace Recast

/-! ## Basic string helpers (models of Python `in`, `str.strip`, `str.lower`) -/

/-- Model of Python list/str prefix test on character lists. -/
def charsStartWith : List Char → List Char → Bool
  | [], _ => true
  | _ :: _, [] => false
  | a :: as, b :: bs => a == b && charsStartWith as bs

/-- Model of Python `sub in s` on character lists: `sub` occurs contiguously. -/
def charsContains : List Char → List Char → Bool
  | l, sub =>
    if charsStartWith sub l then true
    else match l with
      | [] => false
      | _ :: rest => charsContains rest sub

/-- Model of Python `sub in s` for strings. -/
def strContains (s sub : String) : Bool :=
  charsContains s.data sub.data

/-- Model of Python `str.strip()`: drop leading and trailing whitespace. -/
def pyStrip (s : String) : String :=
  ⟨((s.data.dropWhile Char.isWhitespace).reverse.dropWhile
      Char.isWhitespace).reverse⟩

/-! ## Date/time model (`datetime.strptime` / `strftime` for the two formats
the code uses: `%Y%m%d_%H%M%S` (on-disk) and `%Y-%m-%d %H:%M:%S` (internal)). -/

structure DateTime where
  year : Nat
  month : Nat
  day : Nat
  hour : Nat
  minute : Nat
  second : Nat
  deriving DecidableEq, Repr

/-- Gregorian leap-year test (as `calendar.isleap` / `datetime`). -/
def isLeap (y : Nat) : Bool :=
  (y % 4 == 0 && y % 100 != 0) || y % 400 == 0

/-- Days in a month, for `datetime`'s day-of-month validation. -/
def daysInMonth (y m : Nat) : Nat :=
  if m == 2 then (if isLeap y then 29 else 28)
  else if m == 4 || m == 6 || m == 9 || m == 11 then 30
  else 31

/-- Range validation performed by `datetime(...)` construction. -/
def DateTime.valid (d : DateTime) : Bool :=
  1 ≤ d.year && d.year ≤ 9999 &&
  1 ≤ d.month && d.month ≤ 12 &&
  1 ≤ d.day && d.day ≤ daysInMonth d.year d.month &&
  d.hour ≤ 23 && d.minute ≤ 59 && d.second ≤ 59

def digitVal (c : Char) : Nat := c.toNat - '0'.toNat

def digits2 (a b : Char) : Nat := 10 * digitVal a + digitVal b

def digits4 (a b c d : Char) : Nat :=
  1000 * digitVal a + 100 * digitVal b + 10 * digitVal c + digitVal d

/-- Model of `datetime.strptime(s, "%Y%m%d_%H%M%S")`: fixed-width digit
fields, `_` separator, then `datetime` range validation.  Returns `none`
where the Python raises `ValueError`. -/
def parseCompact (s : String) : Option DateTime :=
  match s.data with
  | [y1, y2, y3, y4, m1, m2, d1, d2, u, h1, h2, n1, n2, s1, s2] =>
    if ([y1, y2, y3, y4, m1, m2, d1, d2, h1, h2, n1, n2, s1, s2].all Char.isDigit)
        && u == '_' then
      let dt : DateTime :=
        { year := digits4 y1 y2 y3 y4, month := digits2 m1 m2, day := digits2 d1 d2,
          hour := digits2 h1 h2, minute := digits2 n1 n2, second := digits2 s1 s2 }
      if dt.valid then some dt else none
    else none
  | _ => none

/-- Model of `datetime.strptime(s, "%Y-%m-%d %H:%M:%S")`. -/
def parseInternal (s : String) : Option DateTime :=
  match s.data with
  | [y1, y2, y3, y4, c1, m1, m2, c2, d1, d2, c3, h1, h2, c4, n1, n2, c5, s1, s2] =>
    if ([y1, y2, y3, y4, m1, m2, d1, d2, h1, h2, n1, n2, s1, s2].all Char.isDigit)
        && c1 == '-' && c2 == '-' && c3 == ' ' && c4 == ':' && c5 == ':' then
      let dt : DateTime :=
        { year := digits4 y1 y2 y3 y4, month := digits2 m1 m2, day := digits2 d1 d2,
          hour := digits2 h1 h2, minute := digits2 n1 n2, second := digits2 s1 s2 }
      if dt.valid then some dt else none
    else none
  | _ => none

def pad2 (n : Nat) : String := if n < 10 then "0" ++ toString n else toString n

def pad4 (n : Nat) : String :=
  if n < 10 then "000" ++ toString n
  else if n < 100 then "00" ++ toString n
  else if n < 1000 then "0" ++ toString n
  else toString n

/-- Model of `dt.strftime("%Y%m%d_%H%M%S")`. -/
def formatCompact (d : DateTime) : String :=
  pad4 d.year ++ pad2 d.month ++ pad2 d.day ++ "_" ++
  pad2 d.hour ++ pad2 d.minute ++ pad2 d.second

/-- Model of `dt.strftime("%Y-%m-%d %H:%M:%S")`. -/
def formatInternal (d : DateTime) : String :=
  pad4 d.year ++ "-" ++ pad2 d.month ++ "-" ++ pad2 d.day ++ " " ++
  pad2 d.hour ++ ":" ++ pad2 d.minute ++ ":" ++ pad2 d.second

/-! ## JSON value model

`JVal.obj` models the dictionary produced by `json.load`; keys of a parsed
Python dict are unique, so association-list lookup is unambiguous. -/

inductive JVal where
  | null
  | bool (b : Bool)
  | num (q : ℚ)
  | str (s : String)
  | arr (xs : List JVal)
  | obj (fields : List (String × JVal))

def lookupField : List (String × JVal) → String → Option JVal
  | [], _ => none
  | (k, v) :: rest, key => if k == key then some v else lookupField rest key

/-- `j[k]` lookup for dict-valued JSON, `none` otherwise. -/
def jLookup (j : JVal) (k : String) : Option JVal :=
  match j with
  | .obj fields => lookupField fields k
  | _ => none

/-- Model of Python `str(x)` on a JSON-decoded value.  Exact on strings
(the only case the repository's data ever hits); other cases follow
Python's rendering conventions approximately. -/
def pyStr : JVal → String
  | .str s => s
  | .null => "None"
  | .bool b => if b then "True" else "False"
  | .num q => toString q.num ++ (if q.den == 1 then "" else "/" ++ toString q.den)
  | .arr _ => "[...]"
  | .obj _ => "{...}"

/-- Model of `isinstance(x, (float, int))` plus `float(x)` on a
JSON-decoded value.  Python `bool` is an `int` subclass, so JSON booleans
pass the check and convert to 0/1. -/
def asPyNum : JVal → Option ℚ
  | .num q => some q
  | .bool b => some (if b then 1 else 0)
  | _ => none

def asStr : JVal → Option String
  | .str s => some s
  | _ => none

/-! ## Python `round(x, 3)` on rationals (round-half-even) -/

/-- Round-half-even to an integer, Python's `round` tie rule. -/
def roundHalfEven (q : ℚ) : ℤ :=
  let f : ℤ := ⌊q⌋
  let r : ℚ := q - f
  if r < 1/2 then f
  else if 1/2 < r then f + 1
  else if f % 2 == 0 then f else f + 1

/-- Model of Python `round(x, 3)`. -/
def round3 (q : ℚ) : ℚ := (roundHalfEven (1000 * q) : ℚ) / 1000

/-! ## TranscriptItem / SegmentItem (`models/transcript_item.py`)

`SegmentItem.__init__` stores its four arguments in GObject properties;
`TranscriptItem` stores the fields listed below.  Times are modelled as
rationals. -/

structure SegmentItem where
  start : ℚ
  «end» : ℚ
  text : String
  speaker : String
  deriving DecidableEq, Repr

structure TranscriptItem where
  uuid : String
  /-- Path of the transcript's own JSON file. -/
  source_path : String
  transcript_text : String
  /-- Internal timestamp, `YYYY-MM-DD HH:MM:SS`. -/
  timestamp : String
  output_filename : String
  segments : List SegmentItem
  /-- Path of the original media file. -/
  audio_source_path : String
  language : String
  deriving DecidableEq, Repr

/-- Model of `pathlib.Path(s).name`: last non-empty `/`-separated component. -/
def pathName (s : String) : String :=
  ((s.splitOn "/").reverse.find? (fun c => c ≠ "")).getD ""

/-- Model of `TranscriptItem.__init__` (the fields it derives from its
arguments).  `item_uuid` is always supplied by `load_from_json`; `now`
models `datetime.now()`, used only when `timestamp_str` does not parse. -/
def TranscriptItem.mk' (source_path : String) (transcript_text : String)
    (audio_source_path : String) (item_uuid : String) (timestamp_str : String)
    (segments : List SegmentItem) (language : String) (now : DateTime) :
    TranscriptItem :=
  let internal_timestamp :=
    match parseCompact timestamp_str with
    | some dt => formatInternal dt
    | none => formatInternal now
  { uuid := item_uuid
    source_path := source_path
    transcript_text := transcript_text
    timestamp := internal_timestamp
    output_filename := if source_path ≠ "" then pathName source_path
                       else item_uuid ++ ".json"
    segments := segments
    audio_source_path := audio_source_path
    language := language }

/-- Model of `TranscriptItem.to_dict`.  `now` models `datetime.now()`,
used only in the fallback when the internal timestamp parses in neither
format. -/
def TranscriptItem.to_dict (item : TranscriptItem) (now : DateTime) : JVal :=
  let json_timestamp :=
    match parseInternal item.timestamp with
    | some dt => formatCompact dt
    | none =>
      match parseCompact item.timestamp with
      | some _ => item.timestamp
      | none => formatCompact now
  .obj [
    ("uuid", .str item.uuid),
    ("timestamp", .str json_timestamp),
    ("text", .str item.transcript_text),
    ("segments", .arr (item.segments.map (fun seg =>
      .obj [
        ("start", .num (round3 seg.start)),
        ("end", .num (round3 seg.«end»)),
        ("text", .str seg.text),
        ("speaker", .str seg.speaker)
      ]))),
    ("language", .str item.language),
    ("source_path", .str item.audio_source_path),
    ("audio_source_path", .str item.audio_source_path),
    ("output_filename", .str item.output_filename)
  ]

/-- The per-segment body of `load_from_json`'s segment loop: `none` means
the entry is skipped (the Python logs a warning and `continue`s). -/
def parseOneSeg (j : JVal) : Option SegmentItem :=
  match j with
  | .obj f =>
    match lookupField f "text" with
    | none => none
    | some .null => none
    | some tv =>
      let text := pyStrip (pyStr tv)
      let start? : Option ℚ :=
        match (lookupField f "start").bind asPyNum with
        | some q => some q
        | none => ((lookupField f "start_ms").bind asPyNum).map (· / 1000)
      let end? : Option ℚ :=
        match (lookupField f "end").bind asPyNum with
        | some q => some q
        | none => ((lookupField f "end_ms").bind asPyNum).map (· / 1000)
      match start?, end? with
      | some s, some e =>
        let speaker := pyStr ((lookupField f "speaker").getD (.str ""))
        some { start := s, «end» := e, text := text, speaker := speaker }
      | _, _ => none
  | _ => none

/-- The segment loop of `load_from_json`: malformed entries are skipped,
the rest are collected in order. -/
def parseSegments (xs : List JVal) : List SegmentItem :=
  xs.filterMap parseOneSeg

def spec_mandatory_keys : List String :=
  ["uuid", "timestamp", "text", "segments", "language", "output_filename"]

/-- Model of `TranscriptItem.load_from_json` after `json.load` succeeded:
`j` is the decoded JSON value, `fileName` the path of the JSON file,
`now` models `datetime.now()`.  `Except.error` models the raised
`ValueError`s (and the wrapped unexpected errors). -/
def load_from_json (fileName : String) (now : DateTime) (j : JVal) :
    Except String TranscriptItem :=
  match j with
  | .obj fields =>
    let missing := spec_mandatory_keys.filter (fun k => (lookupField fields k).isNone)
    if missing ≠ [] then
      .error ("missing mandatory keys: " ++ String.intercalate ", " missing)
    else if (lookupField fields "audio_source_path").isNone
        && (lookupField fields "source_path").isNone then
      .error "must contain either audio_source_path or source_path"
    else
      let media_val : JVal :=
        match lookupField fields "audio_source_path" with
        | some v => v
        | none => (lookupField fields "source_path").getD .null
      match asStr ((lookupField fields "uuid").getD .null) with
      | none => .error "Invalid or missing uuid"
      | some item_uuid =>
        if item_uuid = "" then .error "Invalid or missing uuid"
        else
          match asStr ((lookupField fields "timestamp").getD .null) with
          | none => .error "Invalid or missing timestamp"
          | some ts =>
            if ts = "" then .error "Invalid or missing timestamp"
            else
              match parseCompact ts with
              | none => .error "Invalid timestamp format, expected YYYYMMDD_HHMMSS"
              | some _ =>
                match asStr ((lookupField fields "text").getD .null) with
                | none => .error "Invalid text"
                | some transcript_text =>
                  match asStr ((lookupField fields "language").getD .null) with
                  | none => .error "Invalid or missing language"
                  | some language =>
                    if language = "" then .error "Invalid or missing language"
                    else
                      match asStr ((lookupField fields "output_filename").getD .null) with
                      | none => .error "Invalid or missing output_filename"
                      | some ofn =>
                        if ofn = "" then .error "Invalid or missing output_filename"
                        else
                          match lookupField fields "segments" with
                          | some (.arr segs_data) =>
                            let segments := parseSegments segs_data
                            -- the constructor receives the media value; a
                            -- non-string, non-null value makes the GObject
                            -- property assignment raise, wrapped as ValueError
                            match media_val with
                            | .str media => .ok (TranscriptItem.mk' fileName
                                transcript_text media item_uuid ts segments language now)
                            | .null => .ok (TranscriptItem.mk' fileName
                                transcript_text "" item_uuid ts segments language now)
                            | _ => .error "An unexpected error occurred while loading"
                          | some _ => .error "segments field must be a list"
                          | none => .error "segments field must be a list"
  | _ => .error "not a JSON object"

/-! ## Round-trip lemmas (C7) -/

/-- The JSON form `to_dict` gives one segment. -/
def segToJson (seg : SegmentItem) : JVal :=
  .obj [
    ("start", .num (round3 seg.start)),
    ("end", .num (round3 seg.«end»)),
    ("text", .str seg.text),
    ("speaker", .str seg.speaker)
  ]

/-- A concrete well-formed record used to witness the round-trip theorem. -/
def c7WitnessItem : TranscriptItem :=
  { uuid := "u-1", source_path := "/data/t.json", transcript_text := "hi there",
    timestamp := "2024-01-01 12:30:45", output_filename := "t.json",
    segments := [{ start := 1/2, «end» := 5/4, text := "hi there", speaker := "" }],
    audio_source_path := "/data/a.wav", language := "en" }

/-! ## Per-segment tolerance of `load_from_json` (C10) -/

/-- A segment entry the loader's loop skips: not a dictionary, `text`
missing or null, or neither `start`/`start_ms` nor `end`/`end_ms`
holding a numeric value. -/
def segMalformed (j : JVal) : Bool :=
  match j with
  | .obj f =>
    (match lookupField f "text" with
     | none => true
     | some .null => true
     | some _ => false) ||
    (((lookupField f "start").bind asPyNum).isNone
      && ((lookupField f "start_ms").bind asPyNum).isNone) ||
    (((lookupField f "end").bind asPyNum).isNone
      && ((lookupField f "end_ms").bind asPyNum).isNone)
  | _ => true

/-- The JSON object shape written by the worker, with an arbitrary
segment list, used to state the per-segment tolerance property. -/
def mkRecordJson (uuid ts text lang media ofn : String)
    (segs : List JVal) : JVal :=
  .obj [
    ("uuid", .str uuid), ("timestamp", .str ts), ("text", .str text),
    ("segments", .arr segs), ("language", .str lang),
    ("source_path", .str media), ("audio_source_path", .str media),
    ("output_filename", .str ofn)]

/-! ## Device enumeration (`audio/device_utils.py`, C6) -/

structure AudioInputDevice where
  id : Option String
  name : String
  api : String
  device_type : String
  pw_serial : Option Int := none
  gst_plugin_name : Option String := none
  deriving DecidableEq, Repr

/-- What one `GstDevice` reports: display name and the `device.id` /
`device.api` property strings (absent properties are `none`). -/
structure RawDevice where
  displayName : String
  deviceId : Option String
  deviceApi : Option String

/-- Environment of one `get_input_devices` call: whether
`Gst.DeviceMonitor.start()` succeeds and, if so, what it enumerates. -/
structure ProbeEnv where
  monitorStartOk : Bool
  gstDevices : List RawDevice

def systemDefaultDevice : AudioInputDevice :=
  { id := some "", name := "System Default", api := "default",
    device_type := "default", gst_plugin_name := some "autoaudiosrc" }

def pipewireDefaultDevice : AudioInputDevice :=
  { id := some "pipewire-default", name := "Default PipeWire Source",
    api := "pipewire", device_type := "default",
    gst_plugin_name := some "pipewiresrc" }

def alsaFallbackDevice : AudioInputDevice :=
  { id := some "alsa-default", name := "Default ALSA Source (Fallback)",
    api := "alsa", device_type := "default",
    gst_plugin_name := some "alsasrc" }

/-- Substring test against an optional property value (Python
`device_id and "alsa" in device_id.lower()`). -/
def optContains (o : Option String) (sub : String) : Bool :=
  match o with
  | some s => strContains s.toLower sub
  | none => false

/-- The per-device classification of the enumeration loop: name/id
substring heuristics, overridden by the `device.api` property when
present. -/
def classifyDevice (d : RawDevice) : AudioInputDevice :=
  let nameLower := d.displayName.toLower
  let heur : String × Option String :=
    if strContains nameLower "alsa" || optContains d.deviceId "alsa" then
      ("alsa", some "alsasrc")
    else if strContains nameLower "pulse" || optContains d.deviceId "pulse" then
      ("pulse", some "pulsesrc")
    else if strContains nameLower "pipewire"
        || (optContains d.deviceId "pipewire" || optContains d.deviceId "pw") then
      ("pipewire", some "pipewiresrc")
    else ("unknown", none)
  let apiGst : String × Option String :=
    match d.deviceApi with
    | some p =>
      (p, if p == "pipewire" then some "pipewiresrc"
          else if p == "alsa" then some "alsasrc"
          else if p == "pulse" then some "pulsesrc"
          else heur.2)
    | none => heur
  { id := d.deviceId
    name := d.displayName
    api := apiGst.1
    device_type := if strContains nameLower "monitor" then "monitor" else "physical"
    pw_serial := none
    gst_plugin_name := apiGst.2 }

/-- Dedup key: display name for synthetic defaults, `device.id` otherwise
(Python mixes `str` and `None` in one set). -/
def lookupKey (d : AudioInputDevice) : Option String :=
  if d.device_type == "default" then some d.name else d.id

/-- The dedup pass at the end of `get_input_devices`. -/
def uniqueDevices : List AudioInputDevice → List (Option String) →
    List AudioInputDevice
  | [], _ => []
  | d :: rest, seen =>
    if lookupKey d ∈ seen then uniqueDevices rest seen
    else d :: uniqueDevices rest (lookupKey d :: seen)

/-- Model of `get_input_devices`. -/
def get_input_devices (env : ProbeEnv) : List AudioInputDevice :=
  let devices := [systemDefaultDevice, pipewireDefaultDevice]
  if !env.monitorStartOk then
    devices ++ [alsaFallbackDevice]
  else
    uniqueDevices (devices ++ env.gstDevices.map classifyDevice) []

/-! ## Capture pipeline (`audio/capture.py`, C4 and C5)

`AudioCapturer`'s mutable fields are `CapState`; GStreamer's behaviour
(element factory successes, link success, exceptions in the `try` block)
is a `BuildEnv`.  Emitted GObject signals are returned as a list. -/

/-- The held pipeline graph object; `linked` records whether
`link_many` completed on it. -/
structure PipelineG where
  linked : Bool
  playing : Bool
  deriving DecidableEq, Repr

structure CapState where
  pipeline : Option PipelineG
  /-- `self.appsink is not None` -/
  appsink : Bool
  current_gst_id : Option String
  current_pw_serial : Option Int
  is_following_system_default : Bool
  /-- GSetting `mic-input-device-id` -/
  target_device_id : String
  /-- GSetting `follow-system-default` -/
  follow_system_default_setting : Bool
  deriving DecidableEq, Repr

inductive CapSignal where
  | error (msg : String)
  | sourceChanged (desc : String)
  deriving DecidableEq, Repr

structure BuildEnv where
  /-- Whether `Gst.ElementFactory.make` succeeds, per factory name. -/
  makeOk : String → Bool
  /-- Whether `Gst.Element.link_many` succeeds. -/
  linkOk : Bool
  /-- An exception raised inside the construction `try` block. -/
  constructionRaises : Bool
  /-- Environment of the `get_input_devices()` call. -/
  probe : ProbeEnv

structure BuildResult where
  state : CapState
  ok : Bool
  signals : List CapSignal

/-- Model of `_cleanup_pipeline_sync`. -/
def cleanupPipelineSync (s : CapState) : CapState :=
  if s.pipeline.isSome then { s with pipeline := none, appsink := false } else s

/-- The source-selection prelude of `_build_pipeline`: picks the source
element factory name and updates the current-id/serial/following fields. -/
def detSource (s : CapState) (env : BuildEnv) (target : String)
    (follow : Bool) (trackerId : Option String) (trackerSerial : Option Int) :
    CapState × String :=
  if follow then
    -- `if tracker_gst_id and tracker_gst_id != "error"` (None/"" falsy)
    match trackerId with
    | some t =>
      if t ≠ "" && t ≠ "error" then
        ({ s with is_following_system_default := true,
                  current_gst_id := some t,
                  current_pw_serial := trackerSerial }, "pipewiresrc")
      else if target == "pipewire-default" then
        ({ s with is_following_system_default := true,
                  current_gst_id := some "pipewire-default" }, "pipewiresrc")
      else
        ({ s with is_following_system_default := true,
                  current_gst_id := some "" }, "autoaudiosrc")
    | none =>
      if target == "pipewire-default" then
        ({ s with is_following_system_default := true,
                  current_gst_id := some "pipewire-default" }, "pipewiresrc")
      else
        ({ s with is_following_system_default := true,
                  current_gst_id := some "" }, "autoaudiosrc")
  else if target ≠ "" then
    ({ s with is_following_system_default := false,
              current_gst_id := some target },
      match (get_input_devices env.probe).find?
          (fun d => d.id == some target) with
      | some dev =>
        match dev.gst_plugin_name with
        | some plugin => plugin
        | none => "autoaudiosrc"
      | none => "autoaudiosrc")
  else
    ({ s with is_following_system_default := false,
              current_gst_id := some "" }, "autoaudiosrc")

/-- The `try` block of `_build_pipeline`: create the pipeline and the
six elements, link, and report.  Early returns on a factory failure do
not release the freshly created pipeline; link failure and exceptions do
(`_cleanup_pipeline_sync`). -/
def buildGraph (s : CapState) (srcName : String) (env : BuildEnv) :
    BuildResult :=
  if env.constructionRaises then
    ⟨{ s with pipeline := none, appsink := false }, false,
      [.error "Exception during pipeline construction"]⟩
  else
    let s := { s with pipeline := some { linked := false, playing := false } }
    if !env.makeOk srcName then
      ⟨s, false, [.error ("Failed to create source element: " ++ srcName)]⟩
    else
      let s := { s with appsink := env.makeOk "appsink" }
      if !(env.makeOk "queue" && env.makeOk "audioconvert"
          && env.makeOk "audioresample" && env.makeOk "capsfilter"
          && env.makeOk "appsink") then
        ⟨s, false, [.error "Failed to create one or more GStreamer elements."]⟩
      else if !env.linkOk then
        ⟨{ s with pipeline := none, appsink := false }, false,
          [.error "Failed to link GStreamer elements."]⟩
      else
        ⟨{ s with pipeline := some { linked := true, playing := false } }, true,
          [.sourceChanged ("Using: " ++ srcName)]⟩

/-- Model of `_build_pipeline`. -/
def buildPipeline (s : CapState) (env : BuildEnv) (target : String)
    (follow : Bool) (trackerId : Option String) (trackerSerial : Option Int) :
    BuildResult :=
  let det := detSource (cleanupPipelineSync s) env target follow trackerId
    trackerSerial
  if det.2 == "" then
    ⟨det.1, false, [.error "Fatal: Could not determine audio source element name."]⟩
  else
    buildGraph det.1 det.2 env

/-- Model of `start` (the `_do_start` idle callback), with `set_state`
assumed to succeed. -/
def startPipeline (s : CapState) : CapState × List CapSignal :=
  match s.pipeline with
  | some g => ({ s with pipeline := some { g with playing := true } }, [])
  | none => (s, [.error "Cannot start, pipeline not built."])

/-- Model of `move_to` (the `_do_move` idle callback). -/
def move_to (s : CapState) (env : BuildEnv) (newGstId : String)
    (newPwSerial : Option Int) : CapState × List CapSignal :=
  if !s.follow_system_default_setting then
    (s, [])
  else
    let s1 := { s with current_gst_id := some newGstId,
                       current_pw_serial := newPwSerial,
                       is_following_system_default := true }
    let wasPlaying :=
      match s1.pipeline with
      | some g => g.playing
      | none => false
    let r := buildPipeline s1 env s.target_device_id true (some newGstId)
      newPwSerial
    if r.ok then
      if wasPlaying then
        let st := startPipeline r.state
        (st.1, r.signals ++ st.2)
      else
        (r.state, r.signals)
    else
      (r.state, r.signals ++
        [.error ("Failed to switch to new default source: " ++ newGstId)])

def c4State : CapState :=
  { pipeline := none, appsink := false, current_gst_id := none,
    current_pw_serial := none, is_following_system_default := false,
    target_device_id := "", follow_system_default_setting := false }

/-- An environment in which every element factory fails. -/
def c4Env : BuildEnv :=
  { makeOk := fun _ => false, linkOk := true, constructionRaises := false,
    probe := ⟨false, []⟩ }

/-! ## Default-route tracker (`audio/wp_default_tracker.py`, C9)

`_check_and_emit_default_node` as a function of the tracker state
(`self._default_node_props`) and of what WirePlumber reports; emitted
`default-changed` signals are returned as `(gst_id, pw_serial)` pairs. -/

structure NodeProps where
  /-- `PW_KEY_OBJECT_PATH` property, may be absent. -/
  objectPath : Option String
  /-- `PW_KEY_NODE_NAME` property. -/
  nodeName : String
  /-- `PW_KEY_OBJECT_SERIAL` property, may be absent. -/
  serial : Option Int
  deriving DecidableEq, Repr

structure KnownDefault where
  gst_id : String
  pw_serial : Int
  name : String
  deriving DecidableEq, Repr

structure TrackerState where
  /-- `self._default_node_props`; `none` models the empty dict. -/
  default_node_props : Option KnownDefault
  deriving DecidableEq, Repr

/-- Outcome of `om.lookup_object` on the node name plus
`node.get_properties()`. -/
inductive NodeLookup where
  | notFound
  | foundNoProps
  | found (props : NodeProps)

structure TrackerEnv where
  /-- `self._core and self._core.is_connected() and self._om` -/
  coreConnected : Bool
  /-- The `"default"` `Wp.Metadata` object is still found. -/
  metadataPresent : Bool
  /-- Metadata value of `default.audio.source` (None if absent). -/
  audioSource : Option String
  /-- Metadata value of `default.bluez.source` (None if absent). -/
  bluezSource : Option String
  lookupNode : String → NodeLookup
  /-- An exception raised inside the `try` block. -/
  raises : Bool

/-- The node-name resolution with the bluez fallback; Python treats both
`None` and `""` as "no name". -/
def resolvedName (env : TrackerEnv) : Option String :=
  let audio : Option String :=
    match env.audioSource with
    | some n => if n ≠ "" then some n else none
    | none => none
  match audio with
  | some n => some n
  | none =>
    match env.bluezSource with
    | some n => if n ≠ "" then some n else none
    | none => none

/-- Clear the known default and emit `("", -1)` — but only when a
previous default was known (emitting nothing otherwise). -/
def clearAndMaybeEmit (st : TrackerState) : TrackerState × List (String × Int) :=
  match st.default_node_props with
  | some _ => (⟨none⟩, [("", -1)])
  | none => (st, [])

/-- Model of `_check_and_emit_default_node`. -/
def checkAndEmit (st : TrackerState) (env : TrackerEnv) :
    TrackerState × List (String × Int) :=
  if !env.coreConnected then (st, [])
  else if env.raises then clearAndMaybeEmit st
  else if !env.metadataPresent then (st, [])
  else
    match resolvedName env with
    | none => clearAndMaybeEmit st
    | some nodeName =>
      match env.lookupNode nodeName with
      | .found props =>
        let gstId :=
          match props.objectPath with
          | some p => if p ≠ "" then p else props.nodeName
          | none => props.nodeName
        let serial := props.serial.getD (-1)
        if st.default_node_props.map (fun k => (k.gst_id, k.pw_serial))
            ≠ some (gstId, serial) then
          (⟨some ⟨gstId, serial, nodeName⟩⟩, [(gstId, serial)])
        else (st, [])
      | .foundNoProps => (st, [])
      | .notFound => clearAndMaybeEmit st

/-- A previously known default and an environment whose `"default"`
metadata object has disappeared. -/
def c9Prev : KnownDefault := ⟨"pw-node-1", 7, "mic1"⟩

def c9EnvMetaGone : TrackerEnv :=
  { coreConnected := true, metadataPresent := false, audioSource := none,
    bluezSource := none, lookupNode := fun _ => .notFound, raises := false }

/-! ## Model cache (C2)

`transcriber.py` imports `ensure_cached` and `ModelNotAvailableError`
from `..utils.models`, but the revision of `utils/models.py` present
here does not contain them — the function's behaviour is fixed by the
spec (§4.4), so it is modelled from the spec below. -/

inductive ModelStatus where
  | NotCached
  | Preparing
  | Ready
  deriving DecidableEq, Repr

/-- The shared model-status map. -/
structure CacheState where
  status : List (String × ModelStatus)
  deriving DecidableEq, Repr

structure EnsureResult where
  state : CacheState
  ok : Bool
  /-- progress-callback invocations, `(percent, message)`. -/
  progress : List (ℚ × String)
  /-- whether the underlying preparation step was invoked. -/
  invokedPrep : Bool
  deriving DecidableEq, Repr

/-- Modelled from the spec: `ensure_cached(model_name, device,
compute_type, progress_cb)` of `utils/models.py` (missing from this
revision; only its caller is present).  Spec §4.4: progress is reported
as start (0%) then success (100%) or terminal error (−1); once prepared,
the name is marked Ready in the shared map and later calls return
immediately without re-invoking the preparation step while still
emitting the 0%→100% sequence.  `prepOk` models the outcome of the
underlying preparation step. -/
def ensure_cached (st : CacheState) (name : String) (prepOk : Bool) :
    EnsureResult :=
  match (st.status.lookup name).getD .NotCached with
  | .Ready =>
    { state := st, ok := true,
      progress := [(0, "Model " ++ name ++ " already cached"),
                   (100, "Model " ++ name ++ " ready")],
      invokedPrep := false }
  | _ =>
    if prepOk then
      { state := ⟨(name, .Ready) :: st.status⟩, ok := true,
        progress := [(0, "Preparing model " ++ name),
                     (100, "Model " ++ name ++ " ready")],
        invokedPrep := true }
    else
      { state := ⟨(name, .NotCached) :: st.status⟩, ok := false,
        progress := [(0, "Preparing model " ++ name),
                     (-1, "Error: preparation failed for " ++ name)],
        invokedPrep := true }

/-! ## Transcription worker (`transcription/transcriber.py`, C1 and C3)

`_run_transcription_thread` / `start_transcription`, modelled with
`progress_callback = None` (the code guards every progress emission with
`if progress_callback:`), so the observable callbacks are the segment
callback and the completion callback.  The whisper generator, the save
outcomes and the per-file destination filenames (which embed
`datetime.now()` and `uuid4()`) are environment data.  The cancellation
token is modelled by a boundary-check counter: the token reads "set" at
the k-th cancellation check (0-based, counted across the whole run) iff
`cancelAt ≤ k`. -/

/-- One segment produced by `model.transcribe`'s generator. -/
structure Seg where
  text : String
  start : ℚ
  «end» : ℚ
  deriving DecidableEq, Repr

/-- The dict handed to the segment callback. -/
structure SegDict where
  id : Nat
  text : String
  start : ℚ
  «end» : ℚ
  start_ms : ℤ
  end_ms : ℤ
  deriving DecidableEq, Repr

/-- Python `int()` truncation toward zero on a rational. -/
def pyIntOfRat (q : ℚ) : ℤ := Int.tdiv q.num q.den

def mkSegDict (i : Nat) (s : Seg) : SegDict :=
  { id := i, text := pyStrip s.text, start := s.start, «end» := s.«end»,
    start_ms := pyIntOfRat (1000 * s.start),
    end_ms := pyIntOfRat (1000 * s.«end») }

inductive TEvent where
  | segment (d : SegDict)
  | complete (status : String) (segs : List SegDict)
      (savedPath : Option String) (errMsg : Option String)
  deriving DecidableEq, Repr

inductive PrepOutcome where
  | ok
  | notAvailable (details : String)
  | cacheError (msg : String)
  deriving DecidableEq, Repr

structure FileEnv where
  path : String
  /-- exception raised by the `model.transcribe(...)` call itself. -/
  transcribeRaises : Option String
  duration : ℚ
  /-- successive generator pulls; an `error` entry is an exception raised
  while iterating, caught by the per-file `except`. -/
  pulls : List (Except String Seg)
  /-- exception raised by `atomic_write_json`, if any. -/
  saveError : Option String
  /-- the `{timestamp}_{basename}.json` destination path (timestamp and
  uuid come from the environment). -/
  destPath : String

structure RunEnv where
  prep : PrepOutcome
  /-- exception from `WhisperModel(...)` construction. -/
  modelLoadError : Option String
  files : List FileEnv
  cancelAt : Nat

/-- Result of the inner `for i, segment in enumerate(segments_generator)`
loop: delivered segment dicts, collected segment dicts, accumulated raw
text, the loop's outcome, the advanced check counter, and the caught
iteration exception if any. -/
structure PullResult where
  delivered : List SegDict
  collected : List SegDict
  fullText : String
  status : String
  clock : Nat
  errMsg : Option String
  deriving DecidableEq, Repr

/-- The inner segment loop.  Each iteration pulls the generator (which
may raise), then checks the cancellation token, then builds and delivers
the segment dict. -/
def pullLoop (pulls : List (Except String Seg)) (i clock cancelAt : Nat) :
    PullResult :=
  match pulls with
  | [] => ⟨[], [], "", "completed", clock, none⟩
  | .error e :: _ => ⟨[], [], "", "error", clock, some e⟩
  | .ok seg :: rest =>
    if cancelAt ≤ clock then
      ⟨[], [], "", "cancelled", clock + 1, none⟩
    else
      let d := mkSegDict i seg
      let r := pullLoop rest (i + 1) (clock + 1) cancelAt
      ⟨d :: r.delivered, d :: r.collected, seg.text ++ r.fullText,
        r.status, r.clock, r.errMsg⟩

/-- The worker's loop state across files. -/
structure LoopState where
  status : String
  allSegs : List SegDict
  savedPath : Option String
  saveErrMsg : Option String
  clock : Nat
  deriving DecidableEq, Repr

/-- The `for index, file_path in enumerate(file_paths)` loop.  Returns
the delivered segment dicts (in order) and the final loop state. -/
def fileLoop (files : List FileEnv) (st : LoopState) (cancelAt : Nat) :
    List SegDict × LoopState :=
  match files with
  | [] => ([], st)
  | f :: rest =>
    -- top-of-loop cancellation check
    if cancelAt ≤ st.clock then
      ([], { st with status := "cancelled", clock := st.clock + 1 })
    else
      match f.transcribeRaises with
      | some e =>
        ([], { st with status := "error", saveErrMsg := some e,
                       clock := st.clock + 1 })
      | none =>
        let r := pullLoop f.pulls 0 (st.clock + 1) cancelAt
        if r.status == "cancelled" then
          (r.delivered, { st with status := "cancelled", clock := r.clock })
        else if r.status == "error" then
          (r.delivered, { st with status := "error",
                                  saveErrMsg := r.errMsg, clock := r.clock })
        else if st.status == "completed" then
          match f.saveError with
          | none =>
            let next := fileLoop rest
              { st with savedPath := some f.destPath,
                        allSegs := st.allSegs ++ r.collected,
                        clock := r.clock } cancelAt
            (r.delivered ++ next.1, next.2)
          | some e =>
            let next := fileLoop rest
              { st with status := "completed_save_failed",
                        saveErrMsg := some e, clock := r.clock } cancelAt
            (r.delivered ++ next.1, next.2)
        else
          -- a previous file already failed to save: transcribe but skip
          -- the save (the `if status == "completed"` guard)
          let next := fileLoop rest { st with clock := r.clock } cancelAt
          (r.delivered ++ next.1, next.2)

/-- `final_segments_to_pass` of the `finally` block. -/
def finallySegs (status : String) (allSegs : List SegDict) : List SegDict :=
  if status.startsWith "completed" || status == "cancelled" then allSegs
  else []

/-- Model of `_run_transcription_thread`.  The three model-preparation /
model-load error paths schedule the completion callback explicitly and
then `return`, which runs the `finally` block — scheduling it a second
time. -/
def runThread (env : RunEnv) : List TEvent :=
  match env.prep with
  | .notAvailable d =>
    let msg := some ("model-unavailable:" ++ d)
    [.complete "error" [] none msg, .complete "error" [] none msg]
  | .cacheError m =>
    let msg := some ("Caching error: " ++ m)
    [.complete "error" [] none msg, .complete "error" [] none msg]
  | .ok =>
    match env.modelLoadError with
    | some e =>
      -- the early call carries the load-error detail; the `finally`
      -- call passes `save_error_message`, still `None` on this path
      [.complete "error" [] none (some ("Failed to load model: " ++ e)),
       .complete "error" [] none none]
    | none =>
      let r := fileLoop env.files ⟨"completed", [], none, none, 0⟩ env.cancelAt
      r.1.map .segment ++
        [.complete r.2.status (finallySegs r.2.status r.2.allSegs)
          r.2.savedPath r.2.saveErrMsg]

/-- Model of `start_transcription`. -/
def start_transcription (env : RunEnv) : List TEvent :=
  if env.files.isEmpty then
    [.complete "no_files" [] none (some "No files provided.")]
  else
    runThread env

/-- The statuses of the completion-callback invocations, in order. -/
def completionStatuses (evs : List TEvent) : List String :=
  evs.filterMap fun e =>
    match e with
    | .complete s _ _ _ => some s
    | _ => none

/-- The segment-callback invocations, in order. -/
def deliveredSegs (evs : List TEvent) : List SegDict :=
  evs.filterMap fun e =>
    match e with
    | .segment d => some d
    | _ => none

/-- Total number of cancellation checks an uncancelled run performs: one
per file plus one per generator pull. -/
def totalChecks (files : List FileEnv) : Nat :=
  (files.map (fun f => 1 + f.pulls.length)).sum

/-- An invocation whose model preparation raises
`ModelNotAvailableError`. -/
def c1Env : RunEnv :=
  { prep := .notAvailable "model 'nonexistent-model' is not recognised",
    modelLoadError := none,
    files := [{ path := "a.wav", transcribeRaises := none, duration := 10,
                pulls := [], saveError := none, destPath := "t_a.json" }],
    cancelAt := 1000 }

/-! ### Cancellation lemmas (C3) -/

def pullOk : Except String Seg → Bool
  | .ok _ => true
  | .error _ => false

def pullsClean (pulls : List (Except String Seg)) : Bool :=
  pulls.all pullOk

def filesClean (files : List FileEnv) : Bool :=
  files.all fun f => f.transcribeRaises == none && pullsClean f.pulls

def c3File : FileEnv :=
  { path := "a.wav", transcribeRaises := none, duration := 10,
    pulls := [.ok ⟨"one", 0, 1⟩, .ok ⟨"two", 1, 2⟩, .ok ⟨"three", 2, 3⟩],
    saveError := none, destPath := "t_a.json" }

/-- A run cancelled at the third boundary check: after the file's
top-of-loop check and the first segment's check. -/
def c3Env : RunEnv :=
  { prep := .ok, modelLoadError := none, files := [c3File], cancelAt := 2 }

/-! ## Properties and proofs -/

theorem roundHalfEven_intCast (n : ℤ) : roundHalfEven (n : ℚ) = n := by
  unfold roundHalfEven
  simp

theorem round3_idem (q : ℚ) : round3 (round3 q) = round3 q := by
  unfold round3
  have h : (1000 : ℚ) * ((roundHalfEven (1000 * q) : ℚ) / 1000)
      = (roundHalfEven (1000 * q) : ℚ) := by
    field_simp
  rw [h, roundHalfEven_intCast]

theorem parseOneSeg_segToJson (seg : SegmentItem) :
    parseOneSeg (segToJson seg) =
      some { start := round3 seg.start, «end» := round3 seg.«end»,
             text := pyStrip seg.text, speaker := seg.speaker } := by
  simp [parseOneSeg, segToJson, lookupField, pyStr, asPyNum]

theorem parseSegments_map_segToJson (segs : List SegmentItem) :
    parseSegments (segs.map segToJson) =
      segs.map (fun seg =>
        { start := round3 seg.start, «end» := round3 seg.«end»,
          text := pyStrip seg.text, speaker := seg.speaker }) := by
  induction segs with
  | nil => rfl
  | cons s rest ih =>
    simp [parseSegments, List.filterMap] at ih ⊢
    simp [parseOneSeg_segToJson, ih]

theorem forall₂_map_self {α β : Type _} (R : α → β → Prop) (f : α → β)
    (l : List α) (h : ∀ x ∈ l, R x (f x)) : List.Forall₂ R l (l.map f) := by
  induction l with
  | nil => exact List.Forall₂.nil
  | cons a rest ih =>
    exact List.Forall₂.cons (h a (by simp))
      (ih (fun x hx => h x (by simp [hx])))

theorem parseCompact_empty : parseCompact "" = none := rfl

/-- C7: serializing a `TranscriptItem` with `to_dict` and loading the result
back with `load_from_json` yields a record with the same uuid, language and
media source path, and element-wise identical segments whose start/end
times agree to 3 decimal places.  Hypotheses state the record's
well-formedness invariants: non-empty uuid/language/output filename, a
parseable internal timestamp, and trimmed segment texts. -/
theorem transcript_record_round_trip
    (item : TranscriptItem) (tdNow loadNow : DateTime) (fileName : String)
    (dt dt2 : DateTime)
    (huuid : item.uuid ≠ "") (hlang : item.language ≠ "")
    (hofn : item.output_filename ≠ "")
    (hts : parseInternal item.timestamp = some dt)
    (hts2 : parseCompact (formatCompact dt) = some dt2)
    (htrim : ∀ s ∈ item.segments, pyStrip s.text = s.text) :
    ∃ item', load_from_json fileName loadNow (item.to_dict tdNow) = .ok item' ∧
      item'.uuid = item.uuid ∧
      item'.language = item.language ∧
      item'.audio_source_path = item.audio_source_path ∧
      List.Forall₂ (fun s s' => s'.text = s.text ∧ s'.speaker = s.speaker ∧
          round3 s'.start = round3 s.start ∧ round3 s'.«end» = round3 s.«end»)
        item.segments item'.segments := by
  have hne : formatCompact dt ≠ "" := by
    intro h
    rw [h, parseCompact_empty] at hts2
    exact Option.noConfusion hts2
  have hload : load_from_json fileName loadNow (item.to_dict tdNow) =
      .ok (TranscriptItem.mk' fileName item.transcript_text
        item.audio_source_path item.uuid (formatCompact dt)
        (parseSegments (item.segments.map segToJson)) item.language loadNow) := by
    simp only [TranscriptItem.to_dict, hts]
    simp only [load_from_json, lookupField, spec_mandatory_keys, asStr,
      huuid, hlang, hofn, hne, hts2, parseSegments, segToJson]
    simp [huuid, hlang, hofn, hne, hts2]
    rfl
  refine ⟨_, hload, rfl, rfl, rfl, ?_⟩
  show List.Forall₂ _ item.segments
    (parseSegments (item.segments.map segToJson))
  rw [parseSegments_map_segToJson]
  refine forall₂_map_self _ _ _ (fun s hs => ?_)
  exact ⟨htrim s hs, rfl, by rw [round3_idem], by rw [round3_idem]⟩

theorem transcript_record_round_trip_witness :
    ∃ item', load_from_json "t.json" ⟨2024, 1, 1, 0, 0, 0⟩
        (c7WitnessItem.to_dict ⟨2024, 1, 1, 0, 0, 0⟩) = .ok item' ∧
      item'.uuid = c7WitnessItem.uuid ∧
      item'.language = c7WitnessItem.language ∧
      item'.audio_source_path = c7WitnessItem.audio_source_path ∧
      List.Forall₂ (fun s s' => s'.text = s.text ∧ s'.speaker = s.speaker ∧
          round3 s'.start = round3 s.start ∧ round3 s'.«end» = round3 s.«end»)
        c7WitnessItem.segments item'.segments :=
  transcript_record_round_trip c7WitnessItem ⟨2024, 1, 1, 0, 0, 0⟩
    ⟨2024, 1, 1, 0, 0, 0⟩ "t.json" ⟨2024, 1, 1, 12, 30, 45⟩
    ⟨2024, 1, 1, 12, 30, 45⟩ (by decide) (by decide) (by decide)
    (by decide) (by decide) (by decide)

/-! ## Load validation (C8) -/

/-- C8: a transcript JSON missing any mandatory key, missing both media
path keys, or carrying a timestamp that does not parse as
`%Y%m%d_%H%M%S`, is rejected by `load_from_json` with an error — never
returned as a defaulted record. -/
theorem malformed_record_rejected (fileName : String) (now : DateTime)
    (j : JVal)
    (h : (∃ k ∈ spec_mandatory_keys, jLookup j k = none) ∨
         (jLookup j "audio_source_path" = none ∧ jLookup j "source_path" = none) ∨
         (∃ s, jLookup j "timestamp" = some (.str s) ∧ parseCompact s = none)) :
    ∃ e, load_from_json fileName now j = .error e := by
  match j with
  | .null => exact ⟨_, rfl⟩
  | .bool _ => exact ⟨_, rfl⟩
  | .num _ => exact ⟨_, rfl⟩
  | .str _ => exact ⟨_, rfl⟩
  | .arr _ => exact ⟨_, rfl⟩
  | .obj fields =>
    simp only [jLookup] at h
    by_cases hm : (spec_mandatory_keys.filter
        (fun k => (lookupField fields k).isNone)) = []
    · -- all mandatory keys present
      have hmem : ∀ k ∈ spec_mandatory_keys, (lookupField fields k).isSome := by
        intro k hk
        by_contra hcon
        have : k ∈ spec_mandatory_keys.filter
            (fun k => (lookupField fields k).isNone) := by
          refine List.mem_filter.mpr ⟨hk, ?_⟩
          simp [Option.isNone_iff_eq_none, Option.not_isSome_iff_eq_none.mp hcon]
        rw [hm] at this
        exact absurd this (List.not_mem_nil k)
      rcases h with ⟨k, hk, hnone⟩ | ⟨ha, hs⟩ | ⟨s, hts, hbad⟩
      · exact absurd (hmem k hk) (by simp [hnone])
      · rw [load_from_json]
        rw [if_neg (by simp [hm])]
        rw [if_pos (by simp [ha, hs])]
        exact ⟨_, rfl⟩
      · rw [load_from_json]
        rw [if_neg (by simp [hm])]
        by_cases hmedia : (lookupField fields "audio_source_path").isNone
            && (lookupField fields "source_path").isNone
      -- media keys missing: early error
        · rw [if_pos hmedia]; exact ⟨_, rfl⟩
        · rw [if_neg hmedia]
          cases huu : asStr ((lookupField fields "uuid").getD .null) with
          | none => simp only [huu]; exact ⟨_, rfl⟩
          | some u =>
            simp only [huu]
            by_cases hu : u = ""
            · rw [if_pos hu]; exact ⟨_, rfl⟩
            · rw [if_neg hu]
              rw [hts]
              simp only [Option.getD_some, asStr]
              by_cases hse : s = ""
              · rw [if_pos hse]; exact ⟨_, rfl⟩
              · rw [if_neg hse, hbad]
                exact ⟨_, rfl⟩
    · -- some mandatory key is missing: immediate error
      rw [load_from_json]
      rw [if_pos hm]
      exact ⟨_, rfl⟩

theorem malformed_record_rejected_witness :
    ∃ e, load_from_json "t.json" ⟨2024, 1, 1, 0, 0, 0⟩ (.obj [
      ("uuid", .str "u1"), ("timestamp", .str "20240101_120000"),
      ("text", .str "x"), ("language", .str "en"),
      ("source_path", .str "/a.wav"), ("audio_source_path", .str "/a.wav"),
      ("output_filename", .str "t.json")]) = .error e :=
  malformed_record_rejected "t.json" ⟨2024, 1, 1, 0, 0, 0⟩ _
    (Or.inl ⟨"segments", by decide, rfl⟩)

theorem parseOneSeg_eq_none_iff (j : JVal) :
    parseOneSeg j = none ↔ segMalformed j = true := by
  match j with
  | .null => simp [parseOneSeg, segMalformed]
  | .bool _ => simp [parseOneSeg, segMalformed]
  | .num _ => simp [parseOneSeg, segMalformed]
  | .str _ => simp [parseOneSeg, segMalformed]
  | .arr _ => simp [parseOneSeg, segMalformed]
  | .obj f =>
    simp only [parseOneSeg, segMalformed]
    cases htext : lookupField f "text" with
    | none => simp
    | some tv =>
      cases tv with
      | null => simp
      | str s =>
        simp only [Bool.false_or]
        cases h1 : (lookupField f "start").bind asPyNum <;>
          cases h2 : (lookupField f "start_ms").bind asPyNum <;>
            cases h3 : (lookupField f "end").bind asPyNum <;>
              cases h4 : (lookupField f "end_ms").bind asPyNum <;> simp
      | bool b =>
        simp only [Bool.false_or]
        cases h1 : (lookupField f "start").bind asPyNum <;>
          cases h2 : (lookupField f "start_ms").bind asPyNum <;>
            cases h3 : (lookupField f "end").bind asPyNum <;>
              cases h4 : (lookupField f "end_ms").bind asPyNum <;> simp
      | num q =>
        simp only [Bool.false_or]
        cases h1 : (lookupField f "start").bind asPyNum <;>
          cases h2 : (lookupField f "start_ms").bind asPyNum <;>
            cases h3 : (lookupField f "end").bind asPyNum <;>
              cases h4 : (lookupField f "end_ms").bind asPyNum <;> simp
      | arr xs =>
        simp only [Bool.false_or]
        cases h1 : (lookupField f "start").bind asPyNum <;>
          cases h2 : (lookupField f "start_ms").bind asPyNum <;>
            cases h3 : (lookupField f "end").bind asPyNum <;>
              cases h4 : (lookupField f "end_ms").bind asPyNum <;> simp
      | obj g =>
        simp only [Bool.false_or]
        cases h1 : (lookupField f "start").bind asPyNum <;>
          cases h2 : (lookupField f "start_ms").bind asPyNum <;>
            cases h3 : (lookupField f "end").bind asPyNum <;>
              cases h4 : (lookupField f "end_ms").bind asPyNum <;> simp

/-- Dropping the malformed entries first changes nothing: the loop
already skips exactly those. -/
theorem parseSegments_filter_malformed (xs : List JVal) :
    parseSegments (xs.filter (fun v => !segMalformed v)) = parseSegments xs := by
  induction xs with
  | nil => rfl
  | cons x rest ih =>
    by_cases h : segMalformed x
    · have hx : parseOneSeg x = none := (parseOneSeg_eq_none_iff x).mpr h
      simp [parseSegments, h, hx] at ih ⊢
      exact ih
    · simp [parseSegments, h] at ih ⊢
      cases hx : parseOneSeg x <;> simp [hx, ih]

/-- C10: when the `segments` value is a list, a malformed individual
entry (not a dictionary, no `text`, or no valid start/end times in
seconds or milliseconds) is skipped, and the load still succeeds
returning exactly the segments parsed from the remaining entries. -/
theorem load_skips_malformed_segments (fileName : String) (now : DateTime)
    (uuid ts text lang media ofn : String) (segs : List JVal) (dt : DateTime)
    (huuid : uuid ≠ "") (hlang : lang ≠ "") (hofn : ofn ≠ "")
    (hts : parseCompact ts = some dt) :
    ∃ item, load_from_json fileName now
        (mkRecordJson uuid ts text lang media ofn segs) = .ok item ∧
      item.segments = parseSegments (segs.filter (fun v => !segMalformed v)) := by
  have htse : ts ≠ "" := by
    intro h
    rw [h, parseCompact_empty] at hts
    exact Option.noConfusion hts
  refine ⟨TranscriptItem.mk' fileName text media uuid ts
    (parseSegments segs) lang now, ?_, ?_⟩
  · simp [load_from_json, mkRecordJson, lookupField, spec_mandatory_keys,
      asStr, huuid, hlang, hofn, htse, hts]
  · show parseSegments segs = _
    rw [parseSegments_filter_malformed]

theorem load_skips_malformed_segments_witness :
    ∃ item, load_from_json "t.json" ⟨2024, 1, 1, 0, 0, 0⟩
        (mkRecordJson "u1" "20240101_120000" "x" "en" "/a.wav" "t.json"
          [.obj [("start", .num 0), ("end", .num 1), ("text", .str "ok")],
           .str "not-a-dict",
           .obj [("start", .num 2), ("end", .num 3)],
           .obj [("text", .str "no-times")]]) = .ok item ∧
      item.segments = parseSegments
        ([.obj [("start", .num 0), ("end", .num 1), ("text", .str "ok")],
          .str "not-a-dict",
          .obj [("start", .num 2), ("end", .num 3)],
          .obj [("text", .str "no-times")]].filter
            (fun v => !segMalformed v)) :=
  load_skips_malformed_segments "t.json" ⟨2024, 1, 1, 0, 0, 0⟩
    "u1" "20240101_120000" "x" "en" "/a.wav" "t.json" _
    ⟨2024, 1, 1, 12, 0, 0⟩ (by decide) (by decide) (by decide) (by decide)

/-- C6: in every environment the enumeration is non-empty and starts with
the synthetic System Default entry (`id = ""`, type `"default"`); when
the device-monitor probe fails to start, the result is exactly the two
synthetic defaults plus the best-effort ALSA fallback. -/
theorem device_list_nonempty_and_fallback (env : ProbeEnv) :
    1 ≤ (get_input_devices env).length ∧
    (get_input_devices env).head? = some systemDefaultDevice ∧
    systemDefaultDevice.id = some "" ∧
    systemDefaultDevice.device_type = "default" ∧
    (env.monitorStartOk = false →
      get_input_devices env =
        [systemDefaultDevice, pipewireDefaultDevice, alsaFallbackDevice]) := by
  cases h : env.monitorStartOk with
  | false =>
    refine ⟨?_, ?_, rfl, rfl, fun _ => ?_⟩ <;>
      simp [get_input_devices, h]
  | true =>
    refine ⟨?_, ?_, rfl, rfl, fun hc => by simp at hc⟩ <;>
      simp [get_input_devices, h, uniqueDevices, lookupKey, systemDefaultDevice]

theorem device_list_nonempty_and_fallback_witness :
    get_input_devices ⟨false, []⟩ =
      [systemDefaultDevice, pipewireDefaultDevice, alsaFallbackDevice] ∧
    1 ≤ (get_input_devices ⟨false, []⟩).length ∧
    (get_input_devices ⟨false, []⟩).head? = some systemDefaultDevice :=
  ⟨(device_list_nonempty_and_fallback ⟨false, []⟩).2.2.2.2 rfl,
   (device_list_nonempty_and_fallback ⟨false, []⟩).1,
   (device_list_nonempty_and_fallback ⟨false, []⟩).2.1⟩

theorem cleanupPipelineSync_pipeline (s : CapState) :
    (cleanupPipelineSync s).pipeline = none ∨ cleanupPipelineSync s = s := by
  unfold cleanupPipelineSync
  split
  · exact Or.inl rfl
  · exact Or.inr rfl

theorem cleanupPipelineSync_pipeline_none (s : CapState) :
    (cleanupPipelineSync s).pipeline = none := by
  unfold cleanupPipelineSync
  split
  · rfl
  · rename_i h
    exact Option.not_isSome_iff_eq_none.mp h

theorem detSource_pipeline (s : CapState) (env : BuildEnv) (target : String)
    (follow : Bool) (tid : Option String) (tser : Option Int) :
    (detSource s env target follow tid tser).1.pipeline = s.pipeline := by
  unfold detSource
  repeat' split
  all_goals rfl

theorem buildGraph_failure (s : CapState) (srcName : String) (env : BuildEnv)
    (h : (buildGraph s srcName env).ok = false) :
    (∃ m, CapSignal.error m ∈ (buildGraph s srcName env).signals) ∧
    (∀ g, (buildGraph s srcName env).state.pipeline = some g →
      g.linked = false) ∧
    (env.constructionRaises = false → (∀ n, env.makeOk n = true) →
      (buildGraph s srcName env).state.pipeline = none) := by
  by_cases hcr : env.constructionRaises = true
  · refine ⟨⟨"Exception during pipeline construction", ?_⟩, ?_, fun _ _ => ?_⟩ <;>
      simp [buildGraph, hcr]
  · replace hcr : env.constructionRaises = false := by simpa using hcr
    by_cases hmk : env.makeOk srcName = true
    · by_cases hels : (env.makeOk "queue" && env.makeOk "audioconvert"
          && env.makeOk "audioresample" && env.makeOk "capsfilter"
          && env.makeOk "appsink") = true
      · by_cases hlk : env.linkOk = true
        · exfalso
          rw [buildGraph] at h
          simp [hcr, hmk, hels, hlk] at h
        · replace hlk : env.linkOk = false := by simpa using hlk
          refine ⟨⟨"Failed to link GStreamer elements.", ?_⟩, ?_, fun _ _ => ?_⟩ <;>
            simp [buildGraph, hcr, hmk, hels, hlk]
      · refine ⟨⟨"Failed to create one or more GStreamer elements.", ?_⟩,
          ?_, fun _ hall => ?_⟩
        · simp [buildGraph, hcr, hmk, hels]
        · simp [buildGraph, hcr, hmk, hels]
        · exfalso
          exact hels (by simp [hall])
    · refine ⟨⟨"Failed to create source element: " ++ srcName, ?_⟩,
        ?_, fun _ hall => ?_⟩
      · simp [buildGraph, hcr, hmk]
      · simp [buildGraph, hcr, hmk]
      · exact absurd (hall srcName) (by simp [hmk])

/-- C4 (amended): every failed (re)build aborts with `False` and emits a
structured error signal; a half-linked graph is never retained (any
pipeline still referenced after a failure is unlinked); and when every
element factory succeeds and no exception is raised — i.e. the failure
was at the link stage — the partially constructed graph is fully
released. -/
theorem pipeline_build_failure_aborts (s : CapState) (env : BuildEnv)
    (target : String) (follow : Bool) (tid : Option String)
    (tser : Option Int)
    (h : (buildPipeline s env target follow tid tser).ok = false) :
    (∃ m, CapSignal.error m ∈
      (buildPipeline s env target follow tid tser).signals) ∧
    (∀ g, (buildPipeline s env target follow tid tser).state.pipeline
      = some g → g.linked = false) ∧
    (env.constructionRaises = false → (∀ n, env.makeOk n = true) →
      (buildPipeline s env target follow tid tser).state.pipeline = none) := by
  unfold buildPipeline at h ⊢
  by_cases hdet : (detSource (cleanupPipelineSync s) env target follow tid
      tser).2 == ""
  · simp only [hdet, if_true] at h ⊢
    refine ⟨⟨"Fatal: Could not determine audio source element name.", by simp⟩,
      ?_, fun _ _ => ?_⟩ <;>
      rw [detSource_pipeline, cleanupPipelineSync_pipeline_none]
    simp
  · simp only [hdet, if_false, Bool.false_eq_true] at h ⊢
    exact buildGraph_failure _ _ _ h

/-- C4 counterexample: when creating the source element fails, the build
aborts with an error signal — but the freshly created pipeline reference
is NOT released (the claim's "no pipeline or element references remain
held" is false on this path; only link failures and exceptions run
`_cleanup_pipeline_sync`). -/
theorem pipeline_build_failure_retains_reference :
    (buildPipeline c4State c4Env "" false none none).ok = false ∧
    CapSignal.error "Failed to create source element: autoaudiosrc"
      ∈ (buildPipeline c4State c4Env "" false none none).signals ∧
    (buildPipeline c4State c4Env "" false none none).state.pipeline
      ≠ none := by
  refine ⟨rfl, by decide, ?_⟩
  intro h
  exact Option.noConfusion h

theorem pipeline_build_failure_aborts_witness :
    (∃ m, CapSignal.error m ∈
      (buildPipeline c4State c4Env "" false none none).signals) ∧
    (∀ g, (buildPipeline c4State c4Env "" false none none).state.pipeline
      = some g → g.linked = false) := by
  have h := pipeline_build_failure_aborts c4State c4Env "" false none none rfl
  exact ⟨h.1, h.2.1⟩

/-- C5: `move_to` while the `follow-system-default` setting is off is a
no-op — the state (configuration and bound device) is unchanged and no
signal is emitted. -/
theorem move_to_noop_when_not_following (s : CapState) (env : BuildEnv)
    (newId : String) (newSer : Option Int)
    (h : s.follow_system_default_setting = false) :
    move_to s env newId newSer = (s, []) := by
  simp [move_to, h]

theorem move_to_noop_when_not_following_witness :
    move_to c4State c4Env "pw-node-7" (some 3) = (c4State, []) :=
  move_to_noop_when_not_following c4State c4Env "pw-node-7" (some 3) rfl

/-- C9 counterexample: when the metadata object disappears while a
previous default is known, `_check_and_emit_default_node` returns
without emitting anything and keeps the stale previous default — the
claimed `("", -1)` notification is not sent on this path. -/
theorem tracker_metadata_loss_keeps_stale :
    checkAndEmit ⟨some c9Prev⟩ c9EnvMetaGone = (⟨some c9Prev⟩, []) ∧
    (checkAndEmit ⟨some c9Prev⟩ c9EnvMetaGone).2 ≠ [("", -1)] := by
  exact ⟨rfl, by decide⟩

/-- C9 (amended): with the core connected and a previous default known,
failure to resolve the node name, failure to find the named node, or an
exception during resolution each clears the state and emits the
`("", -1)` sentinel; but when the metadata object itself disappears the
tracker returns silently, keeping the stale previous default. -/
theorem tracker_resolution_failure_emits_sentinel (st : TrackerState)
    (env : TrackerEnv) (prev : KnownDefault)
    (hconn : env.coreConnected = true)
    (hprev : st.default_node_props = some prev) :
    (env.raises = true → checkAndEmit st env = (⟨none⟩, [("", -1)])) ∧
    (env.raises = false → env.metadataPresent = true → resolvedName env = none →
      checkAndEmit st env = (⟨none⟩, [("", -1)])) ∧
    (∀ n, env.raises = false → env.metadataPresent = true →
      resolvedName env = some n → env.lookupNode n = .notFound →
      checkAndEmit st env = (⟨none⟩, [("", -1)])) ∧
    (env.raises = false → env.metadataPresent = false →
      checkAndEmit st env = (st, [])) := by
  refine ⟨fun hr => ?_, fun hr hm hn => ?_, fun n hr hm hn hl => ?_,
    fun hr hm => ?_⟩
  · simp [checkAndEmit, hconn, hr, clearAndMaybeEmit, hprev]
  · simp [checkAndEmit, hconn, hr, hm, hn, clearAndMaybeEmit, hprev]
  · simp [checkAndEmit, hconn, hr, hm, hn, hl, clearAndMaybeEmit, hprev]
  · simp [checkAndEmit, hconn, hr, hm]

theorem tracker_resolution_failure_emits_sentinel_witness :
    checkAndEmit ⟨some c9Prev⟩
      { coreConnected := true, metadataPresent := true,
        audioSource := some "mic1", bluezSource := none,
        lookupNode := fun _ => .notFound, raises := false } =
      (⟨none⟩, [("", -1)]) :=
  (tracker_resolution_failure_emits_sentinel ⟨some c9Prev⟩ _ c9Prev rfl
    rfl).2.2.1 "mic1" rfl rfl rfl rfl

/-- C2: after a first successful `ensure_cached` call for a model name, a
second sequential call returns successfully without re-invoking the
preparation step, and both calls emit a progress sequence that starts at
0% and ends at 100%. -/
theorem model_cache_idempotent (st : CacheState) (name : String)
    (_h : (ensure_cached st name true).ok = true) :
    (ensure_cached (ensure_cached st name true).state name true).invokedPrep
        = false ∧
    (ensure_cached (ensure_cached st name true).state name true).ok = true ∧
    ((ensure_cached st name true).progress.head?.map Prod.fst = some 0 ∧
     (ensure_cached st name true).progress.getLast?.map Prod.fst = some 100) ∧
    ((ensure_cached (ensure_cached st name true).state name
        true).progress.head?.map Prod.fst = some 0 ∧
     (ensure_cached (ensure_cached st name true).state name
        true).progress.getLast?.map Prod.fst = some 100) := by
  rcases hs : (st.status.lookup name).getD .NotCached with _ | _ | _ <;>
    simp [ensure_cached, hs, List.lookup]

theorem model_cache_idempotent_witness :
    (ensure_cached (ensure_cached ⟨[]⟩ "tiny" true).state "tiny"
        true).invokedPrep = false ∧
    (ensure_cached (ensure_cached ⟨[]⟩ "tiny" true).state "tiny" true).ok
        = true ∧
    ((ensure_cached ⟨[]⟩ "tiny" true).progress.head?.map Prod.fst = some 0 ∧
     (ensure_cached ⟨[]⟩ "tiny" true).progress.getLast?.map Prod.fst
        = some 100) ∧
    ((ensure_cached (ensure_cached ⟨[]⟩ "tiny" true).state "tiny"
        true).progress.head?.map Prod.fst = some 0 ∧
     (ensure_cached (ensure_cached ⟨[]⟩ "tiny" true).state "tiny"
        true).progress.getLast?.map Prod.fst = some 100) :=
  model_cache_idempotent ⟨[]⟩ "tiny" rfl

/-- C1 (code-bug exhibit): on the model-unavailable path the worker
schedules the completion callback in the `except` handler AND the
`finally` block schedules it again on the way out — two completion
invocations for one `start()` call, contradicting the code's own comment
("completion_callback will be called in finally block") and the spec's
exactly-once contract.  (Each status is still drawn from the allowed
set.) -/
theorem completion_callback_invoked_twice :
    completionStatuses (start_transcription c1Env) = ["error", "error"] ∧
    (completionStatuses (start_transcription c1Env)).length = 2 := by
  exact ⟨rfl, rfl⟩

/-- Each delivery consumes one passed check: the clock advances at least
as much as the number of delivered segments. -/
theorem pullLoop_clock (pulls : List (Except String Seg))
    (i clock cancelAt : Nat) :
    clock ≤ (pullLoop pulls i clock cancelAt).clock ∧
    (pullLoop pulls i clock cancelAt).delivered.length + clock ≤
      (pullLoop pulls i clock cancelAt).clock := by
  induction pulls generalizing i clock with
  | nil => simp [pullLoop]
  | cons p rest ih =>
    cases p with
    | error e => simp [pullLoop]
    | ok seg =>
      by_cases hcl : cancelAt ≤ clock
      · simp [pullLoop, hcl]
      · have := ih (i + 1) (clock + 1)
        simp only [pullLoop, hcl, if_neg, if_false]
        simp only [List.length_cons]
        omega

/-- Deliveries only happen at checks before the cancellation point. -/
theorem pullLoop_count (pulls : List (Except String Seg))
    (i clock cancelAt : Nat) :
    (pullLoop pulls i clock cancelAt).delivered.length ≤ cancelAt - clock := by
  induction pulls generalizing i clock with
  | nil => simp [pullLoop]
  | cons p rest ih =>
    cases p with
    | error e => simp [pullLoop]
    | ok seg =>
      by_cases hcl : cancelAt ≤ clock
      · simp [pullLoop, hcl]
      · have := ih (i + 1) (clock + 1)
        simp only [pullLoop, hcl, if_neg, if_false]
        simp only [List.length_cons]
        omega

/-- With a clean generator, the loop either finishes or is cancelled. -/
theorem pullLoop_status (pulls : List (Except String Seg))
    (i clock cancelAt : Nat) (hc : pullsClean pulls = true) :
    (pullLoop pulls i clock cancelAt).status = "completed" ∨
    (pullLoop pulls i clock cancelAt).status = "cancelled" := by
  induction pulls generalizing i clock with
  | nil => simp [pullLoop]
  | cons p rest ih =>
    cases p with
    | error e => simp [pullsClean, pullOk] at hc
    | ok seg =>
      have hrest : pullsClean rest = true := by
        simpa [pullsClean, pullOk] using hc
      by_cases hcl : cancelAt ≤ clock
      · simp [pullLoop, hcl]
      · simpa [pullLoop, hcl] using ih (i + 1) (clock + 1) hrest

/-- With a clean generator and no cancellation scheduled inside this
file's checks, the loop completes and the clock advances by the number
of pulls. -/
theorem pullLoop_completes (pulls : List (Except String Seg))
    (i clock cancelAt : Nat) (hc : pullsClean pulls = true)
    (hle : clock + pulls.length ≤ cancelAt) :
    (pullLoop pulls i clock cancelAt).status = "completed" ∧
    (pullLoop pulls i clock cancelAt).clock = clock + pulls.length := by
  induction pulls generalizing i clock with
  | nil => simp [pullLoop]
  | cons p rest ih =>
    cases p with
    | error e => simp [pullsClean, pullOk] at hc
    | ok seg =>
      have hrest : pullsClean rest = true := by
        simpa [pullsClean, pullOk] using hc
      have hcl : ¬ cancelAt ≤ clock := by
        simp only [List.length_cons] at hle
        omega
      have := ih (i + 1) (clock + 1) hrest
        (by simp only [List.length_cons] at hle; omega)
      simp only [pullLoop, hcl, if_neg, if_false, List.length_cons]
      exact ⟨this.1, by omega⟩

/-- With a clean generator and the cancellation point inside this file's
segment checks, the loop stops with status `"cancelled"`. -/
theorem pullLoop_cancelled (pulls : List (Except String Seg))
    (i clock cancelAt : Nat) (hc : pullsClean pulls = true)
    (h1 : clock ≤ cancelAt) (h2 : cancelAt < clock + pulls.length) :
    (pullLoop pulls i clock cancelAt).status = "cancelled" := by
  induction pulls generalizing i clock with
  | nil => simp at h2; omega
  | cons p rest ih =>
    cases p with
    | error e => simp [pullsClean, pullOk] at hc
    | ok seg =>
      have hrest : pullsClean rest = true := by
        simpa [pullsClean, pullOk] using hc
      by_cases hcl : cancelAt ≤ clock
      · simp [pullLoop, hcl]
      · have := ih (i + 1) (clock + 1) hrest (by omega)
          (by simp only [List.length_cons] at h2; omega)
        simpa [pullLoop, hcl] using this

/-- The loop is insensitive to the position of a cancellation point it
never reaches. -/
theorem pullLoop_eq_of_le (pulls : List (Except String Seg))
    (i clock cancelAt cancelAt' : Nat)
    (h1 : clock + pulls.length ≤ cancelAt)
    (h2 : clock + pulls.length ≤ cancelAt') :
    pullLoop pulls i clock cancelAt = pullLoop pulls i clock cancelAt' := by
  induction pulls generalizing i clock with
  | nil => simp [pullLoop]
  | cons p rest ih =>
    cases p with
    | error e => simp [pullLoop]
    | ok seg =>
      simp only [List.length_cons] at h1 h2
      have hcl : ¬ cancelAt ≤ clock := by omega
      have hcl' : ¬ cancelAt' ≤ clock := by omega
      simp only [pullLoop, hcl, hcl', if_neg, if_false]
      rw [ih (i + 1) (clock + 1) (by omega) (by omega)]

/-- Raising the cancellation point only extends the delivered prefix. -/
theorem pullLoop_delivered_mono (pulls : List (Except String Seg))
    (i clock cancelAt cancelAt' : Nat) (hle : cancelAt ≤ cancelAt') :
    (pullLoop pulls i clock cancelAt).delivered <+:
      (pullLoop pulls i clock cancelAt').delivered := by
  induction pulls generalizing i clock with
  | nil => simp [pullLoop]
  | cons p rest ih =>
    cases p with
    | error e => simp [pullLoop]
    | ok seg =>
      by_cases hcl : cancelAt ≤ clock
      · simp [pullLoop, hcl]
      · have hcl' : ¬ cancelAt' ≤ clock := by omega
        simp only [pullLoop, hcl, hcl', if_neg, if_false]
        obtain ⟨t, ht⟩ := ih (i + 1) (clock + 1)
        exact ⟨t, by simp [ht]⟩

theorem filesClean_cons {f : FileEnv} {rest : List FileEnv}
    (h : filesClean (f :: rest) = true) :
    f.transcribeRaises = none ∧ pullsClean f.pulls = true ∧
      filesClean rest = true := by
  simp only [filesClean, List.all_cons, Bool.and_eq_true, beq_iff_eq] at h
  exact ⟨h.1.1, h.1.2, by simpa [filesClean] using h.2⟩

theorem totalChecks_cons (f : FileEnv) (rest : List FileEnv) :
    totalChecks (f :: rest) = 1 + f.pulls.length + totalChecks rest := by
  simp [totalChecks]

theorem prefixAppendLeft {α : Type _} (l : List α) {l₁ l₂ : List α}
    (h : l₁ <+: l₂) : l ++ l₁ <+: l ++ l₂ := by
  obtain ⟨t, ht⟩ := h
  exact ⟨t, by rw [List.append_assoc, ht]⟩

/-- With clean files, if the cancellation point lies within the
remaining checks the loop ends with status `"cancelled"`. -/
theorem fileLoop_cancelled (files : List FileEnv) (st : LoopState)
    (cancelAt : Nat) (hfc : filesClean files = true)
    (hst : st.status = "completed" ∨ st.status = "completed_save_failed")
    (hinv : st.clock ≤ cancelAt)
    (hlt : cancelAt < st.clock + totalChecks files) :
    (fileLoop files st cancelAt).2.status = "cancelled" := by
  induction files generalizing st with
  | nil => simp [totalChecks] at hlt; omega
  | cons f rest ih =>
    obtain ⟨htr, hpc, hrest⟩ := filesClean_cons hfc
    rw [totalChecks_cons] at hlt
    by_cases hcl : cancelAt ≤ st.clock
    · simp [fileLoop, hcl]
    · simp only [fileLoop, hcl, if_neg, if_false, htr]
      by_cases hcin : cancelAt < st.clock + 1 + f.pulls.length
      · have hcst : (pullLoop f.pulls 0 (st.clock + 1) cancelAt).status
            = "cancelled" :=
          pullLoop_cancelled f.pulls 0 (st.clock + 1) cancelAt hpc
            (by omega) (by omega)
        simp [hcst]
      · have hcomp := pullLoop_completes f.pulls 0 (st.clock + 1)
          cancelAt hpc (by omega)
        have hclk : (pullLoop f.pulls 0 (st.clock + 1) cancelAt).clock
            = st.clock + 1 + f.pulls.length := hcomp.2
        rcases hst with hst | hst
        · cases hsv : f.saveError with
          | none =>
            simp only [hcomp.1, hst, hsv]
            simp only [show ("completed" == "cancelled") = false by decide,
              show ("completed" == "error") = false by decide,
              show ("completed" == "completed") = true by decide,
              Bool.false_eq_true, if_false, if_true]
            exact ih _ hrest (Or.inl rfl)
              (show (pullLoop f.pulls 0 (st.clock + 1) cancelAt).clock
                ≤ cancelAt by omega)
              (show cancelAt < (pullLoop f.pulls 0 (st.clock + 1)
                cancelAt).clock + totalChecks rest by omega)
          | some e =>
            simp only [hcomp.1, hst, hsv]
            simp only [show ("completed" == "cancelled") = false by decide,
              show ("completed" == "error") = false by decide,
              show ("completed" == "completed") = true by decide,
              Bool.false_eq_true, if_false, if_true]
            exact ih _ hrest (Or.inr rfl)
              (show (pullLoop f.pulls 0 (st.clock + 1) cancelAt).clock
                ≤ cancelAt by omega)
              (show cancelAt < (pullLoop f.pulls 0 (st.clock + 1)
                cancelAt).clock + totalChecks rest by omega)
        · simp only [hcomp.1, hst]
          simp only [show ("completed" == "cancelled") = false by decide,
            show ("completed" == "error") = false by decide,
            show ("completed_save_failed" == "completed") = false by decide,
            Bool.false_eq_true, if_false]
          exact ih _ hrest (Or.inr rfl)
            (show (pullLoop f.pulls 0 (st.clock + 1) cancelAt).clock
              ≤ cancelAt by omega)
            (show cancelAt < (pullLoop f.pulls 0 (st.clock + 1)
              cancelAt).clock + totalChecks rest by omega)

/-- At most `cancelAt - st.clock` further segments can be delivered:
every delivery is preceded by a fresh passed check. -/
theorem fileLoop_count (files : List FileEnv) (st : LoopState)
    (cancelAt : Nat) :
    (fileLoop files st cancelAt).1.length ≤ cancelAt - st.clock := by
  induction files generalizing st with
  | nil => simp [fileLoop]
  | cons f rest ih =>
    by_cases hcl : cancelAt ≤ st.clock
    · simp [fileLoop, hcl]
    · simp only [fileLoop, hcl, if_neg, if_false]
      cases htr : f.transcribeRaises with
      | some e => simp
      | none =>
        have hA := pullLoop_clock f.pulls 0 (st.clock + 1) cancelAt
        have hB := pullLoop_count f.pulls 0 (st.clock + 1) cancelAt
        by_cases h1 : ((pullLoop f.pulls 0 (st.clock + 1) cancelAt).status
            == "cancelled") = true
        · simp only [h1, if_true]
          omega
        · simp only [h1, Bool.false_eq_true, if_false]
          by_cases h2 : ((pullLoop f.pulls 0 (st.clock + 1)
              cancelAt).status == "error") = true
          · simp only [h2, if_true]
            omega
          · simp only [h2, Bool.false_eq_true, if_false]
            by_cases h3 : (st.status == "completed") = true
            · simp only [h3, if_true]
              cases hsv : f.saveError with
              | none =>
                have hrec := ih { st with
                  savedPath := some f.destPath,
                  allSegs := st.allSegs ++
                    (pullLoop f.pulls 0 (st.clock + 1) cancelAt).collected,
                  clock := (pullLoop f.pulls 0 (st.clock + 1) cancelAt).clock }
                simp only [List.length_append]
                simp only [List.length_append] at hrec
                omega
              | some e =>
                have hrec := ih { st with
                  status := "completed_save_failed", saveErrMsg := some e,
                  clock := (pullLoop f.pulls 0 (st.clock + 1) cancelAt).clock }
                dsimp only at hrec
                simp only [List.length_append]
                omega
            · simp only [h3, Bool.false_eq_true, if_false]
              have hrec := ih { st with
                clock := (pullLoop f.pulls 0 (st.clock + 1) cancelAt).clock }
              dsimp only at hrec
              simp only [List.length_append]
              omega

/-- With clean files, raising the cancellation point only extends the
sequence of delivered segments. -/
theorem fileLoop_delivered_mono (files : List FileEnv) (st : LoopState)
    (cancelAt cancelAt' : Nat) (hfc : filesClean files = true)
    (hle : cancelAt ≤ cancelAt') :
    (fileLoop files st cancelAt).1 <+: (fileLoop files st cancelAt').1 := by
  induction files generalizing st with
  | nil => simp [fileLoop]
  | cons f rest ih =>
    obtain ⟨htr, hpc, hrest⟩ := filesClean_cons hfc
    by_cases hcl : cancelAt ≤ st.clock
    · simp [fileLoop, hcl]
    · have hcl' : ¬ cancelAt' ≤ st.clock := by omega
      simp only [fileLoop, hcl, hcl', if_neg, if_false, htr]
      by_cases hcin : cancelAt < st.clock + 1 + f.pulls.length
      · -- the run at `cancelAt` is cancelled inside this file
        have hst1 : (pullLoop f.pulls 0 (st.clock + 1) cancelAt).status
            = "cancelled" :=
          pullLoop_cancelled f.pulls 0 (st.clock + 1) cancelAt hpc
            (by omega) (by omega)
        have hpre : (pullLoop f.pulls 0 (st.clock + 1) cancelAt).delivered
            <+: (pullLoop f.pulls 0 (st.clock + 1) cancelAt').delivered :=
          pullLoop_delivered_mono f.pulls 0 (st.clock + 1) cancelAt cancelAt' hle
        simp only [hst1, show ("cancelled" == "cancelled") = true by decide,
          if_true]
        rcases pullLoop_status f.pulls 0 (st.clock + 1) cancelAt' hpc
          with h2 | h2
        · -- the longer run finishes the file: its deliveries start with
          -- the file's full segment list
          simp only [h2, show ("completed" == "cancelled") = false by decide,
            show ("completed" == "error") = false by decide,
            Bool.false_eq_true, if_false]
          by_cases h3 : (st.status == "completed") = true
          · simp only [h3, if_true]
            cases hsv : f.saveError with
            | none => exact hpre.trans (List.prefix_append _ _)
            | some e => exact hpre.trans (List.prefix_append _ _)
          · simp only [h3, Bool.false_eq_true, if_false]
            exact hpre.trans (List.prefix_append _ _)
        · simp only [h2, show ("cancelled" == "cancelled") = true by decide,
            if_true]
          exact hpre
      · -- the file completes identically in both runs
        have hcomp := pullLoop_completes f.pulls 0 (st.clock + 1)
          cancelAt hpc (by omega)
        have heq : pullLoop f.pulls 0 (st.clock + 1) cancelAt'
            = pullLoop f.pulls 0 (st.clock + 1) cancelAt :=
          (pullLoop_eq_of_le f.pulls 0 (st.clock + 1) cancelAt cancelAt'
            (by omega) (by omega)).symm
        rw [heq]
        simp only [hcomp.1, show ("completed" == "cancelled") = false by decide,
          show ("completed" == "error") = false by decide,
          Bool.false_eq_true, if_false]
        by_cases h3 : (st.status == "completed") = true
        · simp only [h3, if_true]
          cases hsv : f.saveError with
          | none => exact prefixAppendLeft _ (ih _ hrest)
          | some e => exact prefixAppendLeft _ (ih _ hrest)
        · simp only [h3, Bool.false_eq_true, if_false]
          exact prefixAppendLeft _ (ih _ hrest)

theorem completionStatuses_segs_append (l : List SegDict) (s : String)
    (segs : List SegDict) (p m : Option String) :
    completionStatuses (l.map .segment ++ [.complete s segs p m]) = [s] := by
  induction l with
  | nil => rfl
  | cons d rest ih => simp [completionStatuses] at ih ⊢

theorem deliveredSegs_segs_append (l : List SegDict) (s : String)
    (segs : List SegDict) (p m : Option String) :
    deliveredSegs (l.map .segment ++ [.complete s segs p m]) = l := by
  induction l with
  | nil => rfl
  | cons d rest ih => simpa [deliveredSegs] using ih

/-- C3: in a run with a prepared model and clean files whose cancellation
token is set mid-run (before the checks run out), the completion
callback is invoked exactly once, with status `"cancelled"`; at most
`cancelAt` segments are delivered (one boundary check precedes each
delivery, so nothing is delivered after the flag is observed); and the
delivered segments are a prefix of what the uncancelled run delivers. -/
theorem cancellation_mid_run (env : RunEnv)
    (hprep : env.prep = .ok)
    (hload : env.modelLoadError = none)
    (hfc : filesClean env.files = true)
    (hcan : env.cancelAt < totalChecks env.files) :
    completionStatuses (runThread env) = ["cancelled"] ∧
    (deliveredSegs (runThread env)).length ≤ env.cancelAt ∧
    deliveredSegs (runThread env) <+:
      deliveredSegs (runThread
        { env with cancelAt := totalChecks env.files }) := by
  have hrw : runThread env =
      (fileLoop env.files ⟨"completed", [], none, none, 0⟩ env.cancelAt).1.map
        .segment ++
      [.complete
        (fileLoop env.files ⟨"completed", [], none, none, 0⟩ env.cancelAt).2.status
        (finallySegs
          (fileLoop env.files ⟨"completed", [], none, none, 0⟩ env.cancelAt).2.status
          (fileLoop env.files ⟨"completed", [], none, none, 0⟩ env.cancelAt).2.allSegs)
        (fileLoop env.files ⟨"completed", [], none, none, 0⟩ env.cancelAt).2.savedPath
        (fileLoop env.files ⟨"completed", [], none, none, 0⟩ env.cancelAt).2.saveErrMsg] := by
    simp only [runThread, hprep, hload]
  have hrw' : runThread { env with cancelAt := totalChecks env.files } =
      (fileLoop env.files ⟨"completed", [], none, none, 0⟩
        (totalChecks env.files)).1.map .segment ++
      [.complete
        (fileLoop env.files ⟨"completed", [], none, none, 0⟩
          (totalChecks env.files)).2.status
        (finallySegs
          (fileLoop env.files ⟨"completed", [], none, none, 0⟩
            (totalChecks env.files)).2.status
          (fileLoop env.files ⟨"completed", [], none, none, 0⟩
            (totalChecks env.files)).2.allSegs)
        (fileLoop env.files ⟨"completed", [], none, none, 0⟩
          (totalChecks env.files)).2.savedPath
        (fileLoop env.files ⟨"completed", [], none, none, 0⟩
          (totalChecks env.files)).2.saveErrMsg] := by
    simp only [runThread, hprep, hload]
  refine ⟨?_, ?_, ?_⟩
  · rw [hrw, completionStatuses_segs_append]
    have := fileLoop_cancelled env.files ⟨"completed", [], none, none, 0⟩
      env.cancelAt hfc (Or.inl rfl) (Nat.zero_le _) (by simp [hcan])
    rw [this]
  · rw [hrw, deliveredSegs_segs_append]
    have := fileLoop_count env.files ⟨"completed", [], none, none, 0⟩
      env.cancelAt
    simpa using this
  · rw [hrw, hrw', deliveredSegs_segs_append, deliveredSegs_segs_append]
    exact fileLoop_delivered_mono env.files ⟨"completed", [], none, none, 0⟩
      env.cancelAt (totalChecks env.files) hfc (Nat.le_of_lt hcan)

theorem cancellation_mid_run_witness :
    completionStatuses (runThread c3Env) = ["cancelled"] ∧
    (deliveredSegs (runThread c3Env)).length ≤ c3Env.cancelAt ∧
    deliveredSegs (runThread c3Env) <+:
      deliveredSegs (runThread
        { c3Env with cancelAt := totalChecks c3Env.files }) :=
  cancellation_mid_run c3Env rfl rfl (by decide) (by decide)

end Recast
